import Mathlib

/-!
Verification of the capture orchestrator of `mac_internal_audio_recording`
(file `my_screen_capture_kit.py`), shallowly embedded in Lean.

The embedding models the pure data of the script directly (message catalogs,
argument vectors, path and timestamp formatting) and models the effectful
functions (`ensure_executable`, `run_recording`, `main`) as functions from an
explicit filesystem/environment state to a trace of externally visible actions
(prints, child-process spawns, directory creation) plus a result.
-/

namespace MacAudio

/-! ## Configuration constants (my_screen_capture_kit.py, lines 27-31) -/

def DEFAULT_DURATION : Nat := 10

def SWIFT_COMPILER : String := "swiftc"

def RECORDER_EXECUTABLE : String := "recorder"

def SWIFT_SOURCE_FILE : String := "core.swift"

def OUTPUT_FOLDER : String := "output"

/-! ## Message catalogs (lines 34-134)

Python dict literals with unique string keys, embedded as association lists in
source order.  Literal brace characters of the Python format strings are
written with hexadecimal escapes (`\x7b` = left brace, `\x7d` = right brace);
the resulting Lean strings are character-for-character identical to the Python
string values.  Note that the Python literal for `compiler_output_stdout` in
the `en` catalog spells a backslash followed by `n` (escaped backslash),
while the neighbouring entries contain a real newline character. -/

def EN_MESSAGES : List (String × String) := [
  ("swift_source_written", "Swift source written to \x7boutput_path\x7d"),
  ("compiling_swift_code", "Compiling Swift code: \x7bcommand\x7d"),
  ("swift_compilation_successful", "Swift compilation successful."),
  ("compiler_output_stdout", "Compiler Output (stdout):\\n"),
  ("compiler_output_stderr", "Compiler Output (stderr):\n"),
  ("swift_compilation_failed", "Swift compilation failed: \x7berror\x7d"),
  ("compiler_error_stdout", "Compiler Error (stdout):\n"),
  ("compiler_error_stderr", "Compiler Error (stderr):\n"),
  ("error_during_swift_compilation", "An error occurred during Swift compilation: \x7berror\x7d"),
  ("cleaned_up", "Cleaned up \x7bfile\x7d"),
  ("enter_duration", "Enter recording duration in seconds (e.g., 60 for 1 minute): "),
  ("duration_positive", "Duration must be a positive number."),
  ("invalid_duration", "Invalid duration. Please enter a number."),
  ("failed_to_compile_swift", "Failed to compile Swift code. Exiting."),
  ("starting_recording", "Starting recording for \x7bduration\x7d seconds. Output will be saved to: \x7boutput_filepath\x7d"),
  ("recording_complete", "Recording complete. Audio saved to \x7boutput_filepath\x7d"),
  ("recording_failed", "Recording failed: \x7berror\x7d"),
  ("swift_executable_error_stdout", "Swift Executable Error (stdout):\n"),
  ("swift_executable_error_stderr", "Swift Executable Error (stderr):\n"),
  ("unexpected_recording_error", "An unexpected error occurred during recording: \x7berror\x7d"),
  ("macos_audio_recording", "macOS audio recording"),
  ("choose_option", "\n1. Record internal audio only\n2. Record microphone only\n3. Record both (internal + microphone)\n\nChoice: "),
  ("enter_duration_prompt", "Recording duration in seconds (default: continuous until Ctrl+C): "),
  ("continuous_recording", "Press Enter for continuous recording, or enter duration in seconds: "),
  ("recording_started", "Recording started. Press Ctrl+C to stop and save."),
  ("recording_stopped", "Recording stopped by user."),
  ("compiling_in_progress", "Compiling in progress..."),
  ("compilation_failed", "Compilation failed:\n\x7berror\x7d"),
  ("running_in_progress", "Running in progress..."),
  ("error_message", "Error: \x7berror\x7d"),
  ("user_interrupted", "User interrupted"),
  ("goodbye", "Goodbye!"),
  ("recording_started_internal", "Recording internal audio. Press Ctrl+C to stop and save."),
  ("recording_started_microphone", "Recording microphone. Press Ctrl+C to stop and save."),
  ("recording_started_both", "Recording both internal audio and microphone. Press Ctrl+C to stop and save."),
  ("output_folder_created", "Created output folder: \x7bfolder\x7d"),
  ("swift_no_display", "No display found to capture."),
  ("swift_cannot_add_writer_input", "Cannot add asset writer input."),
  ("swift_recording_started", "Recording started. Press Ctrl+C to stop early or wait for duration."),
  ("swift_error_stopping", "Error stopping recording: \x7berror.localizedDescription\x7d"),
  ("swift_recording_finished", "Recording finished after \x7bInt(self?.recordingDuration ?? 0)\x7d seconds."),
  ("swift_stream_stopped_error", "Stream stopped with error: \x7berror.localizedDescription\x7d"),
  ("swift_usage", "Usage: \x7bCommandLine.arguments[0]\x7d <output_path> <duration_seconds>"),
  ("swift_invalid_duration", "Invalid duration: \x7bdurationString\x7d"),
  ("swift_failed_to_start", "Failed to start recording: \x7berror.localizedDescription\x7d")]

def ZH_CN_MESSAGES : List (String × String) := [
  ("swift_source_written", "Swift 源代码已写入 \x7boutput_path\x7d"),
  ("compiling_swift_code", "正在编译 Swift 代码: \x7bcommand\x7d"),
  ("swift_compilation_successful", "Swift 编译成功。"),
  ("compiler_output_stdout", "编译器输出 (stdout):\n"),
  ("compiler_output_stderr", "编译器输出 (stderr):\n"),
  ("swift_compilation_failed", "Swift 编译失败: \x7berror\x7d"),
  ("compiler_error_stdout", "编译器错误 (stdout):\n"),
  ("compiler_error_stderr", "编译器错误 (stderr):\n"),
  ("error_during_swift_compilation", "Swift 编译过程中发生错误: \x7berror\x7d"),
  ("cleaned_up", "已清理 \x7bfile\x7d"),
  ("enter_duration", "请输入录音时长 (秒, 例如 60 代表 1 分钟): "),
  ("duration_positive", "时长必须是正数。"),
  ("invalid_duration", "时长无效。请输入一个数字。"),
  ("failed_to_compile_swift", "Swift 代码编译失败。正在退出。"),
  ("starting_recording", "开始录音，时长 \x7bduration\x7d 秒。输出将保存到: \x7boutput_filepath\x7d"),
  ("recording_complete", "录音完成。音频已保存到 \x7boutput_filepath\x7d"),
  ("recording_failed", "录音失败: \x7berror\x7d"),
  ("swift_executable_error_stdout", "Swift 可执行文件错误 (stdout):\n"),
  ("swift_executable_error_stderr", "Swift 可执行文件错误 (stderr):\n"),
  ("unexpected_recording_error", "录音过程中发生意外错误: \x7berror\x7d"),
  ("swift_no_display", "未找到可捕获的显示器。"),
  ("swift_cannot_add_writer_input", "无法添加资产写入器输入。"),
  ("swift_recording_started", "录音已开始。按 Ctrl+C 提前停止或等待指定时长。"),
  ("swift_error_stopping", "停止录音时出错: \x7berror.localizedDescription\x7d"),
  ("swift_recording_finished", "录音在 \x7bInt(self?.recordingDuration ?? 0)\x7d 秒后完成。"),
  ("swift_stream_stopped_error", "流因错误停止: \x7berror.localizedDescription\x7d"),
  ("swift_usage", "用法: \x7bCommandLine.arguments[0]\x7d <输出路径> <时长秒>"),
  ("swift_invalid_duration", "无效时长: \x7bdurationString\x7d"),
  ("swift_failed_to_start", "启动录音失败: \x7berror.localizedDescription\x7d"),
  ("swift_recording_complete_with_path", "完成: \x7boutputPath\x7d"),
  ("swift_error_occurred", "错误: \x7berror\x7d"),
  ("macos_audio_recording", "macOS 音频录制"),
  ("choose_option", "\n1. 仅录制内部音频\n2. 仅录制麦克风\n3. 同时录制两者 (内部+麦克风)\n\n选择: "),
  ("enter_duration_prompt", "录制秒数 (默认: 持续录制直到 Ctrl+C): "),
  ("continuous_recording", "按回车键持续录制，或输入录制秒数: "),
  ("recording_started", "录制已开始。按 Ctrl+C 停止并保存。"),
  ("recording_stopped", "用户停止录制。"),
  ("compiling_in_progress", "编译中..."),
  ("compilation_failed", "编译失败:\n\x7berror\x7d"),
  ("running_in_progress", "运行中..."),
  ("error_message", "错误: \x7berror\x7d"),
  ("user_interrupted", "用户中断操作"),
  ("goodbye", "再见！"),
  ("recording_started_internal", "正在录制内部音频。按 Ctrl+C 停止并保存。"),
  ("recording_started_microphone", "正在录制麦克风。按 Ctrl+C 停止并保存。"),
  ("recording_started_both", "正在同时录制内部音频和麦克风。按 Ctrl+C 停止并保存。"),
  ("output_folder_created", "已创建输出文件夹: \x7bfolder\x7d")]

/-- `d.get(k)` on a Python dict with unique string keys, embedded as an
association list: the value at the first matching key, if any. -/
def dictGet {α : Type} (d : List (String × α)) (k : String) : Option α :=
  (d.find? (fun p => p.1 == k)).map Prod.snd

/-- The `MESSAGES` table (lines 34-134): two catalogs keyed by language code. -/
def MESSAGES : List (String × List (String × String)) :=
  [("en", EN_MESSAGES), ("zh_CN", ZH_CN_MESSAGES)]

/-! ## Python `str.format` (used by `get_message`, line 158)

`str.format(**kwargs)` on the message strings of this program, modelled on
lists of characters.  Supported behaviour, mirroring CPython: doubled braces
are escapes for literal braces; `\x7bname\x7d` substitutes the named keyword
argument, raising `KeyError` when absent; an empty field name means automatic
positional numbering, which raises `IndexError` here because the program never
passes positional arguments; a lone unmatched brace raises `ValueError`.
A field whose name continues with an accessor (`.attr`, `[i]`), a conversion
(`!r`) or a format spec (`:...`) applied to one of this program's string-valued
keyword arguments fails in CPython (`AttributeError`/`TypeError`); all such
failures are modelled as a single error value.  Underscore digit grouping and
nested replacement fields do not occur in any catalog message and are not
modelled. -/

def formatField (params : List (String × String)) (field : List Char) :
    Except String String :=
  let argName := field.takeWhile (fun d => d != '.' && d != '[' && d != ':' && d != '!')
  if argName.isEmpty then
    Except.error "IndexError: automatic field numbering without positional arguments"
  else
    match params.find? (fun p => p.1 == String.mk argName) with
    | none => Except.error ("KeyError: " ++ String.mk argName)
    | some p =>
      if argName.length == field.length then Except.ok p.2
      else Except.error ("AttributeError: " ++ String.mk field)

/-- Character-list worker for `str.format`.  `fuel` is an upper bound on the
number of steps; every step consumes at least one character, so any fuel
exceeding the input length makes the zero-fuel branch unreachable. -/
def pyFormatCore : Nat → List (String × String) → List Char →
    Except String (List Char)
  | 0, _, _ => Except.error "out of fuel"
  | _ + 1, _, [] => Except.ok []
  | fuel + 1, params, c :: cs =>
    if c = '\x7b' then
      if cs.headD ' ' = '\x7b' then
        (pyFormatCore fuel params cs.tail).map (fun l => '\x7b' :: l)
      else
        let field := cs.takeWhile (fun d => d != '\x7d')
        match cs.dropWhile (fun d => d != '\x7d') with
        | [] => Except.error "ValueError: expected closing brace before end of string"
        | _ :: rest2 =>
          match formatField params field with
          | Except.error e => Except.error e
          | Except.ok v =>
            match pyFormatCore fuel params rest2 with
            | Except.error e => Except.error e
            | Except.ok l => Except.ok (v.data ++ l)
    else if c = '\x7d' then
      if cs.headD ' ' = '\x7d' then
        (pyFormatCore fuel params cs.tail).map (fun l => '\x7d' :: l)
      else Except.error "ValueError: single brace encountered"
    else
      (pyFormatCore fuel params cs).map (fun l => c :: l)

/-- `s.format(**params)` for keyword-only string parameters. -/
def pyFormat (s : String) (params : List (String × String)) :
    Except String String :=
  (pyFormatCore (s.data.length + 1) params s.data).map (fun l => String.mk l)

/-! ## get_message (lines 136-158)

Lines 146-152 obtain the locale's language (`locale.getlocale`, retried after
`setlocale`, any exception defaulting to `'en'`); the outcome of that
environment interaction is the `lang : Option String` parameter below (Python
`None` = `none`).  Lines 154-158 are modelled literally. -/

/-- Line 154: `lang_code = lang.split('_')[0] if lang else 'en'`.
The empty string is falsy in Python, hence also maps to `"en"`; the first
element of `split('_')` is the maximal prefix containing no underscore. -/
def lang_code (lang : Option String) : String :=
  match lang with
  | none => "en"
  | some l => if l = "" then "en" else String.mk (l.data.takeWhile (fun c => c != '_'))

/-- Lines 154-157 of `get_message`: resolve the message text.
`messages = MESSAGES.get(lang_code, MESSAGES['en'])`, then
`messages.get(key, MESSAGES['en'].get(key, f"MISSING_TRANSLATION_{key}"))`. -/
def lookup_message (lang : Option String) (key : String) : String :=
  let messages := (dictGet MESSAGES (lang_code lang)).getD EN_MESSAGES
  (dictGet messages key).getD
    ((dictGet EN_MESSAGES key).getD ("MISSING_TRANSLATION_" ++ key))

/-- `get_message(key, **kwargs)` (lines 136-158): resolve the message, then
apply `str.format`.  A format failure is a raised exception in Python,
modelled as `Except.error`. -/
def get_message (lang : Option String) (key : String)
    (kwargs : List (String × String)) : Except String String :=
  pyFormat (lookup_message lang key) kwargs

/-- The replacement fields of a format string, in order: `some` the list of
field texts when every brace is matched (doubled braces being escapes), and
`none` when a lone brace makes `str.format` raise `ValueError` regardless of
the arguments.  The traversal mirrors `pyFormatCore` step for step, with the
same fuel discipline. -/
def fieldsOf : Nat → List Char → Option (List (List Char))
  | 0, _ => none
  | _ + 1, [] => some []
  | fuel + 1, c :: cs =>
    if c = '\x7b' then
      if cs.headD ' ' = '\x7b' then fieldsOf fuel cs.tail
      else
        match cs.dropWhile (fun d => d != '\x7d') with
        | [] => none
        | _ :: rest2 =>
          (fieldsOf fuel rest2).map (fun fs => cs.takeWhile (fun d => d != '\x7d') :: fs)
    else if c = '\x7d' then
      if cs.headD ' ' = '\x7d' then fieldsOf fuel cs.tail else none
    else fieldsOf fuel cs

/-- The replacement fields (placeholders) of a message string. -/
def pyFields (s : String) : Option (List (List Char)) :=
  fieldsOf (s.data.length + 1) s.data

/-- A replacement field that is a plain keyword name: nonempty, with no
attribute or index accessor, no conversion and no format spec. -/
def plainName (f : List Char) : Bool :=
  !f.isEmpty && f.all (fun d => d != '.' && d != '[' && d != ':' && d != '!')

/-- The field name is bound among the keyword arguments. -/
def boundIn (params : List (String × String)) (f : List Char) : Bool :=
  (params.find? (fun p => p.1 == String.mk f)).isSome

/-- `print(get_message(key))`-style calls with no keyword arguments.  Every
such call in the orchestrator resolves to a message with no replacement
fields, for which formatting is the identity and never fails (see
`pyFormatCore_ok_of_covered` below with an empty field list); the error
branch is unreachable at those keys and is kept only to make the function
total. -/
def getMsgD (lang : Option String) (key : String) : String :=
  match get_message lang key [] with
  | Except.ok s => s
  | Except.error e => e

/-- `get_message(key, name=value)`-style calls with one keyword argument.
Every such call in the orchestrator resolves to a message whose only format
field is exactly that keyword name, so formatting succeeds; the error branch
is unreachable at those call sites and is kept only to make the function
total. -/
def getMsg1 (lang : Option String) (key pname pval : String) : String :=
  match get_message lang key [(pname, pval)] with
  | Except.ok s => s
  | Except.error e => e

/-! ## Python `float(...)` on user duration strings (line 190)

Parsing of Python float literals, with exact rational semantics: an optional
sign, an integer part and/or a fractional part around an optional point, and
an optional decimal exponent.  The numeric value is kept as an exact rational
(CPython rounds it to a binary double; no claim settled here depends on that
rounding).  The special forms `inf`/`nan` and underscore digit grouping are
accepted by CPython but never produced by a numeric duration entry and are
not modelled. -/

def digitsToNat (cs : List Char) : Nat :=
  cs.foldl (fun n c => n * 10 + (c.toNat - 48)) 0

/-- Optional leading sign of a float literal: the sign factor and the rest. -/
def parseSign : List Char → Int × List Char
  | '+' :: r => (1, r)
  | '-' :: r => (-1, r)
  | r => (1, r)

/-- Optional exponent suffix and end of input: given the mantissa as an
exact fraction `num / den`, return the final value, or `none` if the
remaining characters are not a valid exponent suffix. -/
def parseExponent (num : Int) (den : Nat) : List Char → Option Rat
  | [] => some (mkRat num den)
  | c :: r =>
    if c = 'e' ∨ c = 'E' then
      let sr := parseSign r
      let ed := sr.2.takeWhile Char.isDigit
      if ed.isEmpty ∨ !(sr.2.dropWhile Char.isDigit).isEmpty then none
      else
        if 0 ≤ sr.1 then some (mkRat (num * (10 : Int) ^ digitsToNat ed) den)
        else some (mkRat num (den * 10 ^ digitsToNat ed))
    else none

/-- `float(s)` for an already-stripped string `s`: `some` exact value on
success, `none` when CPython raises `ValueError`. -/
def pyParseFloat (s : String) : Option Rat :=
  let sr := parseSign s.data
  let ip := sr.2.takeWhile Char.isDigit
  let afterInt := sr.2.dropWhile Char.isDigit
  match afterInt with
  | '.' :: r =>
    let fp := r.takeWhile Char.isDigit
    if ip.isEmpty ∧ fp.isEmpty then none
    else
      parseExponent
        (sr.1 * ((digitsToNat ip * 10 ^ fp.length + digitsToNat fp : Nat) : Int))
        (10 ^ fp.length) (r.dropWhile Char.isDigit)
  | _ =>
    if ip.isEmpty then none
    else parseExponent (sr.1 * (digitsToNat ip : Int)) 1 afterInt

/-! ## Environment state and action traces

The effectful functions are modelled as functions from an explicit state to a
list of externally visible actions plus a return value.  `Action.spawn` is a
`subprocess.run` call: the child is launched and the call blocks until the
child exits (the orchestrator imposes no timeout); its `captured` flag is the
`capture_output` keyword.  `Action.kill` (forcible child termination,
`Popen.kill`/`terminate`) is included so that its absence from every trace is
expressible; the orchestrator never issues it. -/

inductive Action where
  | print (s : String)
  | readInput (prompt : String)
  | mkdir (dir : String)
  | spawn (argv : List String) (captured : Bool)
  | kill
  deriving DecidableEq, Repr

/-- What happens while the orchestrator is blocked on the recorder child
process: either the child exits on its own, or an interrupt signal (Ctrl+C)
reaches the orchestrator (and, being in the same process group, the child),
making the blocking `subprocess.run` raise `KeyboardInterrupt`. -/
inductive ChildEvent where
  | exits
  | interrupt
  deriving DecidableEq, Repr

/-- Terminal classification of one recording session. -/
inductive RecordingOutcome where
  | completed
  | interrupted
  | failed
  deriving DecidableEq, Repr

/-- Filesystem/environment state read by the orchestrator.  `recorder_mtime`
and `source_mtime` are the results of `os.path.getmtime` (`none` = the call
raises `OSError`); timestamps are exact rationals, as CPython returns
fractional epoch seconds.  `compile_exit`/`compile_stderr` describe the
external compiler's behaviour when invoked. -/
structure FS where
  source_exists : Bool
  recorder_exists : Bool
  recorder_mtime : Option Rat
  source_mtime : Option Rat
  compile_exit : Int
  compile_stderr : String
  output_folder_exists : Bool
  deriving DecidableEq, Repr

/-- Number of child processes spawned in a trace. -/
def spawnCount (tr : List Action) : Nat :=
  (tr.filter (fun a => match a with | Action.spawn _ _ => true | _ => false)).length

/-- The argument vectors of the spawned child processes, in order. -/
def spawnArgs : List Action → List (List String)
  | [] => []
  | Action.spawn argv _ :: r => argv :: spawnArgs r
  | _ :: r => spawnArgs r

/-- Whether any spawn in the trace captures (buffers) the child's standard
output and standard error. -/
def anySpawnCaptured (tr : List Action) : Bool :=
  tr.any (fun a => match a with | Action.spawn _ captured => captured | _ => false)

/-! ## verify_swift_source (lines 160-172) -/

/-- `verify_swift_source()`: returns the source path, or raises
`FileNotFoundError` (modelled as `Except.error` carrying `str(e)`). -/
def verify_swift_source (fs : FS) : Except String String :=
  if fs.source_exists then Except.ok SWIFT_SOURCE_FILE
  else Except.error (SWIFT_SOURCE_FILE ++ " not found")

/-! ## get_duration_input (lines 175-199) -/

/-- Python `str.strip()` with no argument: remove leading and trailing
whitespace (ASCII whitespace; the further Unicode whitespace CPython also
strips does not occur in a numeric duration entry). -/
def pyStrip (s : String) : String :=
  String.mk (((s.data.dropWhile Char.isWhitespace).reverse.dropWhile
    Char.isWhitespace).reverse)

/-- `get_duration_input()`: prompt, strip the entered line, and validate.
Empty input, a non-numeric input, or a non-positive number yield
`'continuous'`; a positive number is returned as the (stripped) string the
user typed.  `raw` is the line returned by `input()` (trailing newline already
removed). -/
def get_duration_input (lang : Option String) (raw : String) :
    List Action × String :=
  let prompt := Action.readInput (getMsgD lang "continuous_recording")
  let duration_input := pyStrip raw
  if duration_input = "" then ([prompt], "continuous")
  else
    match pyParseFloat duration_input with
    | none => ([prompt, Action.print (getMsgD lang "invalid_duration")], "continuous")
    | some duration =>
      if duration ≤ 0 then
        ([prompt, Action.print (getMsgD lang "duration_positive")], "continuous")
      else ([prompt], duration_input)

/-! ## Output path manager (lines 202-218) -/

/-- `ensure_output_folder()` (lines 202-206): create the folder and announce
it when absent; otherwise do nothing. -/
def ensure_output_folder (lang : Option String) (fs : FS) : List Action :=
  if fs.output_folder_exists then []
  else [Action.mkdir OUTPUT_FOLDER,
        Action.print (getMsg1 lang "output_folder_created" "folder" OUTPUT_FOLDER)]

/-- Wall-clock time at second resolution, as read by `datetime.now()`. -/
structure PyDateTime where
  year : Nat
  month : Nat
  day : Nat
  hour : Nat
  minute : Nat
  second : Nat
  deriving DecidableEq, Repr

/-- Decimal rendering of `n` left-padded with zeros to width `w`
(`%Y` pads to 4, the other directives to 2). -/
def zeroPad (w n : Nat) : String :=
  String.mk (List.replicate (w - (toString n).length) '0') ++ toString n

/-- `datetime.now().strftime('%Y%m%d_%H%M%S')` (line 216). -/
def strftime_Ymd_HMS (t : PyDateTime) : String :=
  zeroPad 4 t.year ++ zeroPad 2 t.month ++ zeroPad 2 t.day ++ "_" ++
  zeroPad 2 t.hour ++ zeroPad 2 t.minute ++ zeroPad 2 t.second

/-- `os.path.join(a, b)` for the POSIX path separator: an absolute second
component replaces the first; otherwise they are joined with exactly one
separator. -/
def os_path_join (a b : String) : String :=
  if b.data.headD ' ' = '/' then b
  else if a = "" then b
  else if a.data.getLastD ' ' = '/' then a ++ b
  else a ++ "/" ++ b

/-- `generate_output_filename()` (lines 209-218): ensure the output folder
exists, then build `output/recording_<timestamp>.wav` from the current time
`t`. -/
def generate_output_filename (lang : Option String) (fs : FS) (t : PyDateTime) :
    List Action × String :=
  (ensure_output_folder lang fs,
   os_path_join OUTPUT_FOLDER ("recording_" ++ strftime_Ymd_HMS t ++ ".wav"))

/-! ## ensure_executable (lines 221-251) -/

/-- Lines 239-251 of `ensure_executable`: announce compilation, run the
compiler synchronously with output captured, and report failure on a nonzero
exit status.  Returns the trace and the boolean result. -/
def recompile (lang : Option String) (fs : FS) : List Action × Bool :=
  ([Action.print (getMsgD lang "compiling_in_progress"),
    Action.spawn [SWIFT_COMPILER, SWIFT_SOURCE_FILE, "-o", RECORDER_EXECUTABLE] true] ++
   (if fs.compile_exit ≠ 0 then
      [Action.print (getMsg1 lang "compilation_failed" "error" fs.compile_stderr)]
    else []),
   fs.compile_exit == 0)

/-- `ensure_executable()` (lines 221-251): when the binary exists, both
modification times are readable, and the binary's is strictly newer, return
`True` with no compilation; in every other case (missing binary, unreadable
timestamp — the `except OSError: pass` path — or a binary not strictly newer)
fall through to compilation. -/
def ensure_executable (lang : Option String) (fs : FS) : List Action × Bool :=
  if fs.recorder_exists then
    match fs.recorder_mtime, fs.source_mtime with
    | some exe_time, some src_time =>
      if src_time < exe_time then ([], true)
      else recompile lang fs
    | _, _ => recompile lang fs
  else recompile lang fs

/-! ## run_recording (lines 254-295) -/

/-- `run_recording(output_file, duration, recording_type)` (lines 254-295),
given the event `ev` observed while blocked on the child.  Both branches
launch the recorder with `capture_output=False` (live pass-through) and block
until the child exits; a `KeyboardInterrupt` raised during the blocking call
is caught, acknowledged with the `recording_stopped` message, and the function
returns normally.  The outcome component records the classification: the
function has no failure path (`subprocess.run` without `check=True` raises
nothing on a nonzero exit status), so `failed` is never produced. -/
def run_recording (lang : Option String) (output_file duration recording_type : String)
    (ev : ChildEvent) : List Action × RecordingOutcome :=
  let message_key :=
    if recording_type = "internal" then "recording_started_internal"
    else if recording_type = "microphone" then "recording_started_microphone"
    else if recording_type = "both" then "recording_started_both"
    else "recording_started"
  if duration = "continuous" then
    match ev with
    | ChildEvent.exits =>
      ([Action.print (getMsgD lang message_key),
        Action.spawn ["./" ++ RECORDER_EXECUTABLE, output_file, "86400", recording_type] false],
       RecordingOutcome.completed)
    | ChildEvent.interrupt =>
      ([Action.print (getMsgD lang message_key),
        Action.spawn ["./" ++ RECORDER_EXECUTABLE, output_file, "86400", recording_type] false,
        Action.print ("\n" ++ getMsgD lang "recording_stopped")],
       RecordingOutcome.interrupted)
  else
    match ev with
    | ChildEvent.exits =>
      ([Action.print (getMsgD lang "running_in_progress"),
        Action.spawn ["./" ++ RECORDER_EXECUTABLE, output_file, duration, recording_type] false],
       RecordingOutcome.completed)
    | ChildEvent.interrupt =>
      ([Action.print (getMsgD lang "running_in_progress"),
        Action.spawn ["./" ++ RECORDER_EXECUTABLE, output_file, duration, recording_type] false,
        Action.print ("\n" ++ getMsgD lang "recording_stopped")],
       RecordingOutcome.interrupted)

/-! ## main (lines 328-363) -/

/-- Line 347-351: the choice-to-mode dictionary. -/
def recording_types : List (String × String) :=
  [("1", "internal"), ("2", "microphone"), ("3", "both")]

/-- `main()` (lines 328-363) for one run: print the banner, read the menu
choice, and for a valid choice read the duration, prepare the output path,
verify the source (a `FileNotFoundError` is caught at line 356 and printed
via the `error_message` catalog entry), ensure the binary, and run the
session.  `choice` and `raw` are the two lines the user enters; `ev` is the
event observed while blocked on the recorder child.  `cleanup_files()`
(lines 298-310) is a no-op. -/
def main (lang : Option String) (choice raw : String) (t : PyDateTime)
    (fs : FS) (ev : ChildEvent) : List Action :=
  [Action.print (getMsgD lang "macos_audio_recording"),
   Action.print (String.mk (List.replicate 40 '=')),
   Action.readInput (getMsgD lang "choose_option")] ++
  (if choice = "1" ∨ choice = "2" ∨ choice = "3" then
    let gdi := get_duration_input lang raw
    let gof := generate_output_filename lang fs t
    gdi.1 ++ gof.1 ++
    (match verify_swift_source fs with
     | Except.error e => [Action.print (getMsg1 lang "error_message" "error" e)]
     | Except.ok _ =>
       let ee := ensure_executable lang fs
       ee.1 ++
       (if ee.2 then
          (run_recording lang gof.2 gdi.2 ((dictGet recording_types choice).getD "") ev).1
        else []))
  else [])

/-! ## Helper lemmas -/

theorem spawnCount_append (a b : List Action) :
    spawnCount (a ++ b) = spawnCount a + spawnCount b := by
  simp [spawnCount, List.filter_append]

theorem spawnCount_recompile (lang : Option String) (fs : FS) :
    spawnCount (recompile lang fs).1 = 1 := by
  unfold recompile
  by_cases hc : fs.compile_exit ≠ 0 <;> simp [hc, spawnCount, List.filter_append, List.filter]

/-! ## Claims -/

/-- Claim C1: for every filesystem state in which the binary exists and its
modification timestamp is strictly greater than the source file's,
`ensure_executable` returns success without invoking the compiler (no spawn
in its trace — in fact an empty trace). -/
theorem cache_hit_skips_compiler (lang : Option String) (fs : FS) (e s : Rat)
    (hex : fs.recorder_exists = true)
    (hem : fs.recorder_mtime = some e)
    (hsm : fs.source_mtime = some s)
    (hlt : s < e) :
    (ensure_executable lang fs).2 = true ∧
    spawnCount (ensure_executable lang fs).1 = 0 := by
  unfold ensure_executable
  rw [hex, hem, hsm]
  simp [hlt, spawnCount]

/-- Witness for C1 at a concrete state: binary present, mtime 10 against
source mtime 5. -/
theorem cache_hit_skips_compiler_witness :
    (ensure_executable none ⟨true, true, some 10, some 5, 0, "", true⟩).2 = true ∧
    spawnCount (ensure_executable none ⟨true, true, some 10, some 5, 0, "", true⟩).1 = 0 :=
  cache_hit_skips_compiler none _ 10 5 rfl rfl rfl (by norm_num)

/-- Claim C2: whenever the binary is missing, or reading either modification
timestamp fails (`os.path.getmtime` raising `OSError`), or the source's
modification time is greater than or equal to the binary's,
`ensure_executable` spawns the external compiler exactly once. -/
theorem stale_or_unknown_compiles_exactly_once (lang : Option String) (fs : FS)
    (h : fs.recorder_exists = false ∨ fs.recorder_mtime = none ∨ fs.source_mtime = none ∨
         ∃ e s, fs.recorder_mtime = some e ∧ fs.source_mtime = some s ∧ e ≤ s) :
    spawnCount (ensure_executable lang fs).1 = 1 := by
  unfold ensure_executable
  rcases h with h | h | h | ⟨e, s, hem, hsm, hle⟩
  · simp [h, spawnCount_recompile]
  · rw [h]
    cases hsm : fs.source_mtime <;>
      by_cases hex : fs.recorder_exists <;> simp [hex, spawnCount_recompile]
  · rw [h]
    cases hem : fs.recorder_mtime <;>
      by_cases hex : fs.recorder_exists <;> simp [hex, spawnCount_recompile]
  · rw [hem, hsm]
    by_cases hex : fs.recorder_exists <;>
      simp [hex, not_lt.mpr hle, spawnCount_recompile]

/-- Witness for C2 at a concrete state: source mtime 9 is newer than binary
mtime 3, so the compiler runs exactly once. -/
theorem stale_or_unknown_compiles_exactly_once_witness :
    spawnCount (ensure_executable none ⟨true, true, some 3, some 9, 0, "", true⟩).1 = 1 :=
  stale_or_unknown_compiles_exactly_once none _
    (Or.inr (Or.inr (Or.inr ⟨3, 9, rfl, rfl, by norm_num⟩)))

/-- Claim C3: every capture request spawns the recorder with the argument
vector `[binaryPath, outputPath, durationArg, modeArg]`, where the duration
argument is the continuous sentinel `"86400"` exactly when the requested
duration is `'continuous'`; in particular the last two elements are
`["86400", "both"]` for a continuous both-sources request and
`["45", "internal"]` for a 45-second internal request. -/
theorem recorder_argv_contract :
    (∀ (lang : Option String) (output_file duration recording_type : String) (ev : ChildEvent),
      spawnArgs (run_recording lang output_file duration recording_type ev).1 =
        [["./" ++ RECORDER_EXECUTABLE, output_file,
          if duration = "continuous" then "86400" else duration, recording_type]]) ∧
    spawnArgs (run_recording none "output/rec.wav" "continuous" "both" ChildEvent.exits).1 =
      [["./recorder", "output/rec.wav", "86400", "both"]] ∧
    spawnArgs (run_recording none "output/rec.wav" "45" "internal" ChildEvent.exits).1 =
      [["./recorder", "output/rec.wav", "45", "internal"]] := by
  refine ⟨?_, rfl, rfl⟩
  intro lang output_file duration recording_type ev
  unfold run_recording
  by_cases hd : duration = "continuous" <;> cases ev <;> simp [hd, spawnArgs]

/-- Claim C4: when an interrupt reaches the orchestrator while it is blocked
on the recorder child, `run_recording` issues no forcible termination of the
child (no `kill` in its trace; the only child interaction is the single
blocking spawn), acknowledges the interrupt with the stopped-by-user message,
and classifies the session as interrupted — never as failed. -/
theorem interrupt_resolves_interrupted (lang : Option String)
    (output_file duration recording_type : String) :
    (run_recording lang output_file duration recording_type ChildEvent.interrupt).2 =
      RecordingOutcome.interrupted ∧
    (run_recording lang output_file duration recording_type ChildEvent.interrupt).2 ≠
      RecordingOutcome.failed ∧
    Action.kill ∉ (run_recording lang output_file duration recording_type ChildEvent.interrupt).1 ∧
    Action.print ("\n" ++ getMsgD lang "recording_stopped") ∈
      (run_recording lang output_file duration recording_type ChildEvent.interrupt).1 ∧
    spawnCount (run_recording lang output_file duration recording_type ChildEvent.interrupt).1 = 1 := by
  unfold run_recording
  by_cases hd : duration = "continuous" <;> simp [hd, spawnCount, List.filter]

/-- Claim C5, counterexample: for a bounded duration (here 45 seconds) the
recorder is spawned with `capture_output=False` — the child's standard output
and standard error are not buffered, contradicting the claim that they are
fully captured. -/
theorem bounded_duration_not_captured_cex :
    spawnCount (run_recording (some "en_US") "output/rec.wav" "45" "internal"
      ChildEvent.exits).1 = 1 ∧
    anySpawnCaptured (run_recording (some "en_US") "output/rec.wav" "45" "internal"
      ChildEvent.exits).1 = false := by
  exact ⟨rfl, rfl⟩

/-- Claim C5 as amended: for every bounded (non-continuous) duration,
`run_recording` spawns the child exactly once, with standard output and
standard error passed through live (not captured), and blocks until the child
exits; no buffered text exists to surface (the function returns nothing). -/
theorem bounded_duration_live_output (lang : Option String)
    (output_file duration recording_type : String) (ev : ChildEvent)
    (h : duration ≠ "continuous") :
    spawnCount (run_recording lang output_file duration recording_type ev).1 = 1 ∧
    anySpawnCaptured (run_recording lang output_file duration recording_type ev).1 = false := by
  unfold run_recording
  cases ev <;> simp [h, spawnCount, anySpawnCaptured, List.filter]

/-- Witness for C5 as amended, at duration `"45"`. -/
theorem bounded_duration_live_output_witness :
    spawnCount (run_recording (some "en_US") "output/rec.wav" "45" "internal"
      ChildEvent.interrupt).1 = 1 ∧
    anySpawnCaptured (run_recording (some "en_US") "output/rec.wav" "45" "internal"
      ChildEvent.interrupt).1 = false :=
  bounded_duration_live_output _ _ _ _ _ (by decide)

/-- Claim C6: `get_message` resolves the message text through the fallback
chain of line 155-157: the catalog registered for the language key (the
`lang_code` the function derives from the locale) when that catalog holds the
key; otherwise the base English catalog; otherwise the
`MISSING_TRANSLATION_<key>` placeholder.  In particular a language with no
catalog, such as French, resolves `goodbye` to the English text. -/
theorem message_fallback_chain :
    (∀ (lang : Option String) (key : String) (cat : List (String × String)) (m : String),
      dictGet MESSAGES (lang_code lang) = some cat →
      dictGet cat key = some m →
      lookup_message lang key = m) ∧
    (∀ (lang : Option String) (key m : String),
      (∀ cat, dictGet MESSAGES (lang_code lang) = some cat → dictGet cat key = none) →
      dictGet EN_MESSAGES key = some m →
      lookup_message lang key = m) ∧
    (∀ (lang : Option String) (key : String),
      (∀ cat, dictGet MESSAGES (lang_code lang) = some cat → dictGet cat key = none) →
      dictGet EN_MESSAGES key = none →
      lookup_message lang key = "MISSING_TRANSLATION_" ++ key) ∧
    lookup_message (some "fr_FR") "goodbye" = "Goodbye!" ∧
    get_message (some "fr_FR") "goodbye" [] = Except.ok "Goodbye!" := by
  refine ⟨?_, ?_, ?_, rfl, rfl⟩
  · intro lang key cat m hcat hkey
    unfold lookup_message
    rw [hcat]
    simp [hkey]
  · intro lang key m hmiss hen
    unfold lookup_message
    cases hcat : dictGet MESSAGES (lang_code lang) with
    | none => simp [hen]
    | some cat => simp [hmiss cat hcat, hen]
  · intro lang key hmiss hen
    unfold lookup_message
    cases hcat : dictGet MESSAGES (lang_code lang) with
    | none => simp [hen]
    | some cat => simp [hmiss cat hcat, hen]

/-- Witness for C6: the English catalog is selected for an `en_US` locale and
holds `goodbye`; an `fr_FR` locale has no catalog and a missing key falls all
the way to the placeholder. -/
theorem message_fallback_chain_witness :
    lookup_message (some "en_US") "goodbye" = "Goodbye!" ∧
    lookup_message (some "fr_FR") "no_such_key" = "MISSING_TRANSLATION_" ++ "no_such_key" := by
  constructor
  · exact message_fallback_chain.1 (some "en_US") "goodbye" EN_MESSAGES "Goodbye!" rfl rfl
  · refine message_fallback_chain.2.2.1 (some "fr_FR") "no_such_key" ?_ rfl
    intro cat hcat
    rw [show dictGet MESSAGES (lang_code (some "fr_FR")) = none from rfl] at hcat
    exact Option.noConfusion hcat

/-- Claim C7, counterexample: `get_message` does raise.  Resolving
`error_message` yields `"Error: \x7berror\x7d"`, and formatting it with no
keyword arguments raises `KeyError` in Python (modelled as `Except.error`),
so the claim that `get_message` never raises for every key and parameter set
is false. -/
theorem get_message_raises_cex :
    get_message (some "en_US") "error_message" [] = Except.error "KeyError: error" := rfl

/-- On a plain keyword-name field, `formatField` is exactly the keyword
lookup: the bound value on success and a `KeyError` otherwise. -/
theorem formatField_plain (params : List (String × String)) (f : List Char)
    (hp : plainName f = true) :
    formatField params f =
      match params.find? (fun p => p.1 == String.mk f) with
      | some p => Except.ok p.2
      | none => Except.error ("KeyError: " ++ String.mk f) := by
  simp only [plainName, Bool.and_eq_true, Bool.not_eq_true'] at hp
  have htake : f.takeWhile
      (fun d => d != '.' && d != '[' && d != ':' && d != '!') = f :=
    List.takeWhile_eq_self_iff.mpr (fun x hx => List.all_eq_true.mp hp.2 x hx)
  unfold formatField
  rw [htake, if_neg (by rw [hp.1]; exact Bool.false_ne_true)]
  cases hfind : params.find? (fun p => p.1 == String.mk f) with
  | none => rfl
  | some p => simp

/-- Formatting succeeds whenever the braces of the input are well matched and
every replacement field is a plain keyword name bound in the arguments. -/
theorem pyFormatCore_ok_of_covered (params : List (String × String)) :
    ∀ (fuel : Nat) (l : List Char) (fields : List (List Char)),
      fieldsOf fuel l = some fields →
      (∀ f ∈ fields, plainName f = true ∧ boundIn params f = true) →
      ∃ out, pyFormatCore fuel params l = Except.ok out := by
  intro fuel
  induction fuel with
  | zero =>
    intro l fields hf _
    exact absurd hf (by simp [fieldsOf])
  | succ n ih =>
    intro l fields hf hcov
    cases l with
    | nil => exact ⟨[], rfl⟩
    | cons c cs =>
      unfold fieldsOf at hf
      unfold pyFormatCore
      by_cases hb1 : c = '\x7b'
      · rw [if_pos hb1] at hf ⊢
        by_cases hb2 : cs.headD ' ' = '\x7b'
        · rw [if_pos hb2] at hf ⊢
          obtain ⟨out, hout⟩ := ih cs.tail fields hf hcov
          exact ⟨'\x7b' :: out, by rw [hout]; rfl⟩
        · rw [if_neg hb2] at hf ⊢
          cases hdrop : cs.dropWhile (fun d => d != '\x7d') with
          | nil => rw [hdrop] at hf; exact absurd hf (by simp)
          | cons x rest2 =>
            rw [hdrop] at hf
            dsimp only at hf ⊢
            cases hrec : fieldsOf n rest2 with
            | none => rw [hrec] at hf; exact absurd hf (by simp)
            | some fs =>
              rw [hrec] at hf
              simp only [Option.map_some', Option.some.injEq] at hf
              have hfield := hcov (cs.takeWhile (fun d => d != '\x7d'))
                (by rw [← hf]; exact List.mem_cons_self _ _)
              have hrest : ∀ f ∈ fs, plainName f = true ∧ boundIn params f = true :=
                fun f hfmem => hcov f (by rw [← hf]; exact List.mem_cons_of_mem _ hfmem)
              obtain ⟨out, hout⟩ := ih rest2 fs hrec hrest
              have hval : ∃ v, formatField params
                  (cs.takeWhile (fun d => d != '\x7d')) = Except.ok v := by
                rw [formatField_plain params _ hfield.1]
                have hb := hfield.2
                unfold boundIn at hb
                cases hfind : params.find? (fun p =>
                    p.1 == String.mk (cs.takeWhile (fun d => d != '\x7d'))) with
                | none => rw [hfind] at hb; exact absurd hb (by simp)
                | some p => exact ⟨p.2, rfl⟩
              obtain ⟨v, hv⟩ := hval
              rw [hv, hout]
              exact ⟨v.data ++ out, rfl⟩
      · rw [if_neg hb1] at hf ⊢
        by_cases hb3 : c = '\x7d'
        · rw [if_pos hb3] at hf ⊢
          by_cases hb4 : cs.headD ' ' = '\x7d'
          · rw [if_pos hb4] at hf ⊢
            obtain ⟨out, hout⟩ := ih cs.tail fields hf hcov
            exact ⟨'\x7d' :: out, by rw [hout]; rfl⟩
          · rw [if_neg hb4] at hf
            exact absurd hf (by simp)
        · rw [if_neg hb3] at hf ⊢
          obtain ⟨out, hout⟩ := ih cs fields hf hcov
          exact ⟨c :: out, by rw [hout]; rfl⟩

/-- When every replacement field is a plain keyword name and at least one of
them is unbound, formatting fails with the `KeyError` of an unbound field. -/
theorem pyFormatCore_keyError_of_unbound (params : List (String × String)) :
    ∀ (fuel : Nat) (l : List Char) (fields : List (List Char)),
      fieldsOf fuel l = some fields →
      (∀ f ∈ fields, plainName f = true) →
      (∃ f ∈ fields, boundIn params f = false) →
      ∃ f ∈ fields, boundIn params f = false ∧
        pyFormatCore fuel params l = Except.error ("KeyError: " ++ String.mk f) := by
  intro fuel
  induction fuel with
  | zero =>
    intro l fields hf _ _
    exact absurd hf (by simp [fieldsOf])
  | succ n ih =>
    intro l fields hf hplain hunb
    cases l with
    | nil =>
      have : fields = [] := by
        simpa [fieldsOf] using hf.symm
      rw [this] at hunb
      simp at hunb
    | cons c cs =>
      unfold fieldsOf at hf
      unfold pyFormatCore
      by_cases hb1 : c = '\x7b'
      · rw [if_pos hb1] at hf ⊢
        by_cases hb2 : cs.headD ' ' = '\x7b'
        · rw [if_pos hb2] at hf ⊢
          obtain ⟨f, hfmem, hfunb, herr⟩ := ih cs.tail fields hf hplain hunb
          exact ⟨f, hfmem, hfunb, by rw [herr]; rfl⟩
        · rw [if_neg hb2] at hf ⊢
          cases hdrop : cs.dropWhile (fun d => d != '\x7d') with
          | nil => rw [hdrop] at hf; exact absurd hf (by simp)
          | cons x rest2 =>
            rw [hdrop] at hf
            dsimp only at hf ⊢
            cases hrec : fieldsOf n rest2 with
            | none => rw [hrec] at hf; exact absurd hf (by simp)
            | some fs =>
              rw [hrec] at hf
              simp only [Option.map_some', Option.some.injEq] at hf
              have hfieldplain := hplain (cs.takeWhile (fun d => d != '\x7d'))
                (by rw [← hf]; exact List.mem_cons_self _ _)
              rw [formatField_plain params _ hfieldplain]
              by_cases hbound : boundIn params (cs.takeWhile (fun d => d != '\x7d')) = true
              · have hbound' := hbound
                unfold boundIn at hbound'
                cases hfind : params.find? (fun p =>
                    p.1 == String.mk (cs.takeWhile (fun d => d != '\x7d'))) with
                | none => rw [hfind] at hbound'; exact absurd hbound' (by simp)
                | some p =>
                  have hunb' : ∃ f ∈ fs, boundIn params f = false := by
                    obtain ⟨f, hfmem, hfunb⟩ := hunb
                    rw [← hf] at hfmem
                    rcases List.mem_cons.mp hfmem with heq | hmem
                    · rw [heq] at hfunb
                      rw [hfunb] at hbound
                      exact absurd hbound (by simp)
                    · exact ⟨f, hmem, hfunb⟩
                  have hplain' : ∀ f ∈ fs, plainName f = true :=
                    fun f hfmem => hplain f (by rw [← hf]; exact List.mem_cons_of_mem _ hfmem)
                  obtain ⟨f, hfmem, hfunb, herr⟩ := ih rest2 fs hrec hplain' hunb'
                  refine ⟨f, ?_, hfunb, ?_⟩
                  · rw [← hf]; exact List.mem_cons_of_mem _ hfmem
                  · rw [herr]
              · have hbf : boundIn params (cs.takeWhile (fun d => d != '\x7d')) = false :=
                  Bool.not_eq_true _ ▸ eq_false_of_ne_true hbound
                have hbf' := hbf
                unfold boundIn at hbf'
                cases hfind : params.find? (fun p =>
                    p.1 == String.mk (cs.takeWhile (fun d => d != '\x7d'))) with
                | some p => rw [hfind] at hbf'; exact absurd hbf' (by simp)
                | none =>
                  exact ⟨cs.takeWhile (fun d => d != '\x7d'),
                    by rw [← hf]; exact List.mem_cons_self _ _, hbf, rfl⟩
      · rw [if_neg hb1] at hf ⊢
        by_cases hb3 : c = '\x7d'
        · rw [if_pos hb3] at hf ⊢
          by_cases hb4 : cs.headD ' ' = '\x7d'
          · rw [if_pos hb4] at hf ⊢
            obtain ⟨f, hfmem, hfunb, herr⟩ := ih cs.tail fields hf hplain hunb
            exact ⟨f, hfmem, hfunb, by rw [herr]; rfl⟩
          · rw [if_neg hb4] at hf
            exact absurd hf (by simp)
        · rw [if_neg hb3] at hf ⊢
          obtain ⟨f, hfmem, hfunb, herr⟩ := ih cs fields hf hplain hunb
          exact ⟨f, hfmem, hfunb, by rw [herr]; rfl⟩

/-- Claim C7 as amended: `get_message` never raises and always returns a
displayable string provided the supplied format parameters cover the
placeholders of the resolved message — every replacement field a plain
keyword name bound in the parameters, which covers every call the program
makes, including parameterless calls on placeholder-free messages; and a call
whose resolved message has plain-name placeholders with at least one of them
not supplied raises `KeyError` for an unsupplied placeholder. -/
theorem get_message_covered_params_never_raise :
    (∀ (lang : Option String) (key : String) (params : List (String × String))
        (fields : List (List Char)),
      pyFields (lookup_message lang key) = some fields →
      (∀ f ∈ fields, plainName f = true ∧ boundIn params f = true) →
      ∃ s, get_message lang key params = Except.ok s) ∧
    (∀ (lang : Option String) (key : String) (params : List (String × String))
        (fields : List (List Char)),
      pyFields (lookup_message lang key) = some fields →
      (∀ f ∈ fields, plainName f = true) →
      (∃ f ∈ fields, boundIn params f = false) →
      ∃ f ∈ fields, boundIn params f = false ∧
        get_message lang key params = Except.error ("KeyError: " ++ String.mk f)) := by
  constructor
  · intro lang key params fields hf hcov
    obtain ⟨out, hout⟩ := pyFormatCore_ok_of_covered params _ _ fields hf hcov
    exact ⟨String.mk out, by unfold get_message pyFormat; rw [hout]; rfl⟩
  · intro lang key params fields hf hplain hunb
    obtain ⟨f, hfmem, hfunb, herr⟩ :=
      pyFormatCore_keyError_of_unbound params _ _ fields hf hplain hunb
    exact ⟨f, hfmem, hfunb, by unfold get_message pyFormat; rw [herr]; rfl⟩

/-- Witness for C7 as amended: the `error_message` entry has the single plain
placeholder `error`; supplying it formats successfully, omitting it raises
the corresponding `KeyError`. -/
theorem get_message_covered_params_never_raise_witness :
    (∃ s, get_message (some "en_US") "error_message" [("error", "boom")] = Except.ok s) ∧
    (∃ f ∈ (["error".data] : List (List Char)),
      boundIn ([] : List (String × String)) f = false ∧
        get_message (some "en_US") "error_message" [] =
          Except.error ("KeyError: " ++ String.mk f)) :=
  ⟨get_message_covered_params_never_raise.1 (some "en_US") "error_message"
      [("error", "boom")] ["error".data] (by decide) (by decide),
    get_message_covered_params_never_raise.2 (some "en_US") "error_message"
      [] ["error".data] (by decide) (by decide) ⟨"error".data, by decide, by decide⟩⟩

/-- The trace of `get_duration_input` spawns no child process. -/
theorem spawnCount_get_duration_input (lang : Option String) (raw : String) :
    spawnCount (get_duration_input lang raw).1 = 0 := by
  by_cases h1 : pyStrip raw = ""
  · simp [get_duration_input, h1, spawnCount, List.filter]
  · cases h2 : pyParseFloat (pyStrip raw) with
    | none => simp [get_duration_input, h1, h2, spawnCount, List.filter]
    | some q =>
      by_cases h3 : q ≤ 0 <;> simp [get_duration_input, h1, h2, h3, spawnCount, List.filter]

/-- The trace of `ensure_output_folder` spawns no child process. -/
theorem spawnCount_ensure_output_folder (lang : Option String) (fs : FS) :
    spawnCount (ensure_output_folder lang fs) = 0 := by
  unfold ensure_output_folder
  split <;> rfl

/-- Claim C8: in every run whose filesystem lacks the Swift source file, no
child process (neither the compiler nor the capture binary) is ever spawned,
and — whenever the run gets past the menu — the `FileNotFoundError` raised by
`verify_swift_source` is reported as a source-not-found error message. -/
theorem missing_source_aborts_before_spawn (lang : Option String)
    (choice raw : String) (t : PyDateTime) (fs : FS) (ev : ChildEvent)
    (h : fs.source_exists = false) :
    spawnCount (main lang choice raw t fs ev) = 0 ∧
    ((choice = "1" ∨ choice = "2" ∨ choice = "3") →
      Action.print (getMsg1 lang "error_message" "error" (SWIFT_SOURCE_FILE ++ " not found"))
        ∈ main lang choice raw t fs ev) := by
  have hv : verify_swift_source fs =
      Except.error (SWIFT_SOURCE_FILE ++ " not found") := by
    unfold verify_swift_source
    rw [h]
    rfl
  unfold main
  rw [hv]
  by_cases hch : choice = "1" ∨ choice = "2" ∨ choice = "3"
  · simp only [hch, if_true]
    refine ⟨?_, fun _ => ?_⟩
    · rw [spawnCount_append, spawnCount_append, spawnCount_append,
        spawnCount_get_duration_input,
        show (generate_output_filename lang fs t).1 = ensure_output_folder lang fs from rfl,
        spawnCount_ensure_output_folder]
      rfl
    · simp
  · rw [if_neg hch]
    refine ⟨rfl, fun hc => absurd hc hch⟩

/-- Witness for C8: a concrete run (choice 1, duration 45, source missing)
spawns nothing and prints the localized source-not-found error. -/
theorem missing_source_aborts_before_spawn_witness :
    spawnCount (main none "1" "45" ⟨2025, 1, 2, 3, 4, 5⟩
      ⟨false, true, some 10, some 5, 0, "", true⟩ ChildEvent.exits) = 0 ∧
    (("1" = "1" ∨ "1" = "2" ∨ "1" = "3") →
      Action.print (getMsg1 none "error_message" "error" (SWIFT_SOURCE_FILE ++ " not found"))
        ∈ main none "1" "45" ⟨2025, 1, 2, 3, 4, 5⟩
          ⟨false, true, some 10, some 5, 0, "", true⟩ ChildEvent.exits) :=
  missing_source_aborts_before_spawn none "1" "45" _ _ _ rfl

/-- Claim C9: the generated output path is
`output/recording_<YYYYMMDD_HHMMSS>.wav`, the timestamp being the wall-clock
time at second resolution with zero-padded fields; in particular at
2025-01-02 03:04:05 it is `output/recording_20250102_030405.wav`. -/
theorem output_filename_format :
    (∀ (lang : Option String) (fs : FS) (t : PyDateTime),
      (generate_output_filename lang fs t).2 =
        "output/recording_" ++ (zeroPad 4 t.year ++ zeroPad 2 t.month ++ zeroPad 2 t.day ++
          "_" ++ zeroPad 2 t.hour ++ zeroPad 2 t.minute ++ zeroPad 2 t.second) ++ ".wav") ∧
    (generate_output_filename none ⟨true, true, none, none, 0, "", true⟩
      ⟨2025, 1, 2, 3, 4, 5⟩).2 = "output/recording_20250102_030405.wav" := by
  constructor
  · intro lang fs t
    show os_path_join OUTPUT_FOLDER ("recording_" ++ strftime_Ymd_HMS t ++ ".wav") = _
    have hb : ("recording_" ++ strftime_Ymd_HMS t ++ ".wav").data.headD ' ' = 'r' := by
      rw [String.data_append, String.data_append,
        show "recording_".data = 'r' :: "ecording_".data from rfl]
      rfl
    unfold os_path_join
    rw [hb]
    rw [if_neg (by decide), if_neg (by decide), if_neg (by decide)]
    apply String.ext
    simp only [String.data_append, List.append_assoc]
    unfold strftime_Ymd_HMS
    simp only [String.data_append, List.append_assoc]
    rfl
  · rfl

/-- Claim C10, counterexample: the input `" 45 "` parses as the float 45,
which is strictly positive, yet `get_duration_input` returns `"45"` — the
stripped string, not the original input unchanged (line 185 applies
`.strip()` before validation and returns the stripped value). -/
theorem duration_input_strips_cex :
    pyParseFloat (pyStrip " 45 ") = some 45 ∧ (0 : Rat) < 45 ∧
    (get_duration_input (some "en_US") " 45 ").2 = "45" ∧
    (get_duration_input (some "en_US") " 45 ").2 ≠ " 45 " := by
  refine ⟨by decide, by norm_num, by decide, by decide⟩

/-- Claim C10 as amended: for every input whose stripped form parses as a
strictly positive float (fractional values and scientific notation included),
`get_duration_input` returns the stripped input string unchanged — with no
normalization to an integer second count — and `run_recording` passes exactly
that string as the duration element of the recorder argument vector. -/
theorem positive_duration_passthrough (lang : Option String)
    (raw output_file recording_type : String) (q : Rat) (ev : ChildEvent)
    (hp : pyParseFloat (pyStrip raw) = some q) (hq : 0 < q) :
    (get_duration_input lang raw).2 = pyStrip raw ∧
    spawnArgs (run_recording lang output_file (pyStrip raw) recording_type ev).1 =
      [["./" ++ RECORDER_EXECUTABLE, output_file, pyStrip raw, recording_type]] := by
  have hne : pyStrip raw ≠ "" := by
    intro h0
    rw [h0, show pyParseFloat "" = none from rfl] at hp
    exact Option.noConfusion hp
  have hnc : pyStrip raw ≠ "continuous" := by
    intro h0
    rw [h0, show pyParseFloat "continuous" = none from rfl] at hp
    exact Option.noConfusion hp
  constructor
  · simp [get_duration_input, hne, hp, hq.not_le]
  · unfold run_recording
    cases ev <;> simp [hnc, spawnArgs]

/-- Witness for C10 as amended, at the scientific-notation input `"1e2"`
(value 100). -/
theorem positive_duration_passthrough_witness :
    (get_duration_input (some "en_US") "1e2").2 = pyStrip "1e2" ∧
    spawnArgs (run_recording (some "en_US") "output/rec.wav" (pyStrip "1e2")
      "internal" ChildEvent.exits).1 =
      [["./" ++ RECORDER_EXECUTABLE, "output/rec.wav", pyStrip "1e2", "internal"]] :=
  positive_duration_passthrough (some "en_US") "1e2" "output/rec.wav" "internal" 100
    ChildEvent.exits (by decide) (by norm_num)

end MacAudio

